import Mathlib

/-!
Verification of the core metadata / virtual-filesystem logic of the `rose`
music-library manager.  Python functions from `rose/rules.py`,
`rose/releases.py`, `rose/virtualfs.py` and `rose/cache/read.py` are shallowly
embedded below; Python `str` values are modelled as `List Char`, `None` as
`Option.none`, raised exceptions as `Except` errors.
-/

/-- Python strings are modelled as lists of characters. -/
abbrev Str := List Char

/-- Convert a Lean string literal to the `Str` model. -/
def strLit (s : String) : Str := s.toList

/-- Python truthiness of an optional string: `None` and `""` are falsy. -/
def truthyStr : Option Str → Bool
  | none => false
  | some s => s ≠ []

/-- Python truthiness of a plain string. -/
def truthy (s : Str) : Bool := s ≠ []

/-- Substring containment, the Python `in` operator on strings:
`needle in hay`. -/
def hasSubstr (hay needle : Str) : Bool :=
  needle.isPrefixOf hay ||
    match hay with
    | [] => false
    | _ :: t => hasSubstr t needle

/-- Python whitespace characters recognised by `str.strip()` (ASCII subset). -/
def isPySpace (c : Char) : Bool :=
  c = ' ' || c = '\t' || c = '\n' || c = '\x0d' || c = '\x0b' || c = '\x0c'

/-- Python `str.strip()`: remove leading and trailing whitespace. -/
def pyStrip (s : Str) : Str :=
  ((s.dropWhile isPySpace).reverse.dropWhile isPySpace).reverse

/-- The character of a decimal digit. -/
def digitChar (d : Nat) : Char := Char.ofNat (48 + d)

/-- Fuel-driven digit expansion; the fuel always suffices when it starts at
the number itself. -/
def natDigitsF : Nat → Nat → Str
  | 0, n => [digitChar (n % 10)]
  | fuel + 1, n =>
    if n < 10 then [digitChar n]
    else natDigitsF fuel (n / 10) ++ [digitChar (n % 10)]

/-- Decimal digits of a natural number, most significant first
(Python `str` on a non-negative int). -/
def natDigits (n : Nat) : Str := natDigitsF n n

/-- Python `str` applied to an int. -/
def intToStr (i : Int) : Str :=
  if i < 0 then '-' :: natDigits i.natAbs else natDigits i.natAbs

/-- Numeric value of a decimal digit character. -/
def digitVal (c : Char) : Nat := c.toNat - 48

/-- Parse a run of digits that may contain single underscores between digits,
accumulating into `acc` (the Python `int()` digit grammar). -/
def pyDigitsAux (acc : Nat) : Str → Option Nat
  | [] => some acc
  | '_' :: c :: rest =>
    if c.isDigit then pyDigitsAux (acc * 10 + digitVal c) rest else none
  | c :: rest =>
    if c.isDigit then pyDigitsAux (acc * 10 + digitVal c) rest else none

/-- Parse a non-empty digit string (underscore separators allowed between
digits, as in Python's `int()`). -/
def pyDigits : Str → Option Nat
  | [] => none
  | c :: rest => if c.isDigit then pyDigitsAux (digitVal c) rest else none

/-- Python `int(s)`: strip whitespace, optional sign, then digits.
Returns `none` where Python raises `ValueError`. -/
def pyInt (s : Str) : Option Int :=
  match pyStrip s with
  | '+' :: rest => (pyDigits rest).map Int.ofNat
  | '-' :: rest => (pyDigits rest).map (fun n => -(Int.ofNat n))
  | rest => (pyDigits rest).map Int.ofNat

/-- Fuel-driven splitter; when the separator matches at the head, emit a token
boundary and skip it, otherwise move one character into the current token.
The fuel always suffices when it starts at the string's length. -/
def pySplitF (sep : Str) : Nat → Str → List Str
  | _, [] => [[]]
  | 0, s => [s]
  | fuel + 1, c :: rest =>
    if sep ≠ [] ∧ sep.isPrefixOf (c :: rest) then
      [] :: pySplitF sep fuel ((c :: rest).drop sep.length)
    else
      match pySplitF sep fuel rest with
      | [] => [[c]]
      | t :: ts => (c :: t) :: ts

/-- Python `s.split(sep)` for a non-empty separator `sep`: split on each
non-overlapping occurrence, left to right.  `"".split(sep) = [""]`. -/
def pySplit (sep s : Str) : List Str := pySplitF sep s.length s

/-- Python `s.lower()` (ASCII model). -/
def pyLower (s : Str) : Str := s.map Char.toLower

/-- Lexicographic comparison of strings used by Python `sorted`. -/
def strLe (a b : Str) : Bool :=
  match a, b with
  | [], _ => true
  | _ :: _, [] => false
  | x :: xs, y :: ys => if x = y then strLe xs ys else decide (x < y)

/-- Stable insertion into a sorted list. -/
def sortedInsert (x : Str) : List Str → List Str
  | [] => [x]
  | y :: ys => if strLe x y then x :: y :: ys else y :: sortedInsert x ys

/-- Python `sorted` on a list of strings (stable insertion sort). -/
def pySorted : List Str → List Str
  | [] => []
  | x :: xs => sortedInsert x (pySorted xs)

section FileHandles
/-! ## `rose/virtualfs.py`: `FileHandleManager` -/

namespace FileHandleManager

/-- `FileHandleManager.next` from `rose/virtualfs.py`: the state update
`self._state = max(10, self._state + 1 % 10_000)` followed by returning
`self._state`.  Note that Python parses `self._state + 1 % 10_000` as
`self._state + (1 % 10_000)`. -/
def next (state : Nat) : Nat := max 10 (state + 1 % 10000)

end FileHandleManager

end FileHandles

section WriteBuffer
/-! ## `rose/virtualfs.py`: `RoseLogicalCore.write` on a special-op buffer -/

/-- The buffer mutation performed by `RoseLogicalCore.write` for a file handle
registered in `file_creation_special_ops`: `del b[offset:]` then
`b.extend(data)`. -/
def specialOpWriteBuffer (b : List UInt8) (offset : Nat) (data : List UInt8) :
    List UInt8 :=
  b.take offset ++ data

/-- The return value of `RoseLogicalCore.write` for a special-op handle:
`len(data)`. -/
def specialOpWriteReturn (data : List UInt8) : Nat := data.length

end WriteBuffer

section CanShow
/-! ## `rose/virtualfs.py`: `CanShower` -/

/-- The visibility-filter fields of `Config` used by `CanShower`. -/
structure VfsFilterConfig where
  fuse_artists_whitelist : List Str
  fuse_artists_blacklist : List Str
  fuse_genres_whitelist : List Str
  fuse_genres_blacklist : List Str
  fuse_labels_whitelist : List Str
  fuse_labels_blacklist : List Str

/-- The state built by `CanShower.__init__`: each `_x_w`/`_x_b` field is the
configured list as a set, or `None` when the configured list is falsy. -/
structure CanShower where
  artist_w : Option (List Str)
  artist_b : Option (List Str)
  genre_w : Option (List Str)
  genre_b : Option (List Str)
  label_w : Option (List Str)
  label_b : Option (List Str)

/-- `CanShower.__init__`. -/
def CanShower.init (config : VfsFilterConfig) : CanShower where
  artist_w := if config.fuse_artists_whitelist ≠ [] then
    some config.fuse_artists_whitelist else none
  artist_b := if config.fuse_artists_blacklist ≠ [] then
    some config.fuse_artists_blacklist else none
  genre_w := if config.fuse_genres_whitelist ≠ [] then
    some config.fuse_genres_whitelist else none
  genre_b := if config.fuse_genres_blacklist ≠ [] then
    some config.fuse_genres_blacklist else none
  label_w := if config.fuse_labels_whitelist ≠ [] then
    some config.fuse_labels_whitelist else none
  label_b := if config.fuse_labels_blacklist ≠ [] then
    some config.fuse_labels_blacklist else none

/-- Python truthiness of an optional set: `None` and the empty set are falsy. -/
def truthySet : Option (List Str) → Bool
  | none => false
  | some s => s ≠ []

/-- `CanShower.artist`. -/
def CanShower.artist (cs : CanShower) (a : Str) : Bool :=
  if truthySet cs.artist_w then a ∈ (cs.artist_w.getD [])
  else if truthySet cs.artist_b then a ∉ (cs.artist_b.getD [])
  else true

/-- `CanShower.genre`. -/
def CanShower.genre (cs : CanShower) (g : Str) : Bool :=
  if truthySet cs.genre_w then g ∈ (cs.genre_w.getD [])
  else if truthySet cs.genre_b then g ∉ (cs.genre_b.getD [])
  else true

/-- `CanShower.label`. -/
def CanShower.label (cs : CanShower) (l : Str) : Bool :=
  if truthySet cs.label_w then l ∈ (cs.label_w.getD [])
  else if truthySet cs.label_b then l ∉ (cs.label_b.getD [])
  else true

end CanShow

section MetadataEdit
/-! ## `rose/releases.py`: the release-metadata-edit format -/

/-- `MetadataArtist` from `rose/releases.py`. -/
structure MetadataArtist where
  name : Str
  role : Str
  deriving DecidableEq

/-- `MetadataTrack` from `rose/releases.py`. -/
structure MetadataTrack where
  disc_number : Str
  track_number : Str
  title : Str
  artists : List MetadataArtist
  deriving DecidableEq

/-- `MetadataRelease` from `rose/releases.py`.  The Python `tracks` dict is an
insertion-ordered map, modelled as an association list. -/
structure MetadataRelease where
  title : Str
  releasetype : Str
  year : Option Int
  genres : List Str
  labels : List Str
  artists : List MetadataArtist
  tracks : List (Str × MetadataTrack)
  deriving DecidableEq

/-- The value tree of the TOML document produced by
`MetadataRelease.serialize` (the TOML string encoder/decoder pair itself is an
out-of-scope collaborator and is modelled as the identity on this tree). -/
structure SerializedRelease where
  title : Str
  releasetype : Str
  year : Int
  genres : List Str
  labels : List Str
  artists : List MetadataArtist
  tracks : List (Str × MetadataTrack)
  deriving DecidableEq

/-- Python `self.year or -9999`: `None` and `0` are falsy, so both become the
`-9999` sentinel. -/
def pyOrYear : Option Int → Int
  | none => -9999
  | some y => if y = 0 then -9999 else y

/-- `MetadataRelease.serialize`: `asdict(self)` with
`data["year"] = self.year or -9999`. -/
def MetadataRelease.serialize (x : MetadataRelease) : SerializedRelease where
  title := x.title
  releasetype := x.releasetype
  year := pyOrYear x.year
  genres := x.genres
  labels := x.labels
  artists := x.artists
  tracks := x.tracks

/-- `MetadataRelease.from_toml`: rebuild the dataclass from the parsed TOML
document, mapping the `-9999` year sentinel back to `None`. -/
def MetadataRelease.from_toml (d : SerializedRelease) : MetadataRelease where
  title := d.title
  releasetype := d.releasetype
  year := if d.year = -9999 then none else some d.year
  genres := d.genres
  labels := d.labels
  artists := d.artists.map (fun a => { name := a.name, role := a.role })
  tracks := d.tracks.map (fun p =>
    (p.1, { track_number := p.2.track_number, disc_number := p.2.disc_number,
            title := p.2.title,
            artists := p.2.artists.map (fun a => { name := a.name, role := a.role }) }))

end MetadataEdit

section Matcher
/-! ## `rose/rules.py`: the matcher (`matches_rule` inside
`execute_metadata_rule`) -/

/-- Python `s.replace(old, new)` for a single-character `old` whose
replacement introduces no further occurrence of a later pattern. -/
def pyReplaceChar (s : Str) (c : Char) (r : Str) : Str :=
  s.flatMap (fun ch => if ch = c then r else [ch])

/-- The `matchrule` escaping in `execute_metadata_rule`:
`matchrule.replace("%", "\\%").replace("_", "\\_")` applied after stripping
the `^`/`$` anchors. -/
def matchruleOf (matcher : Str) : Str :=
  let m1 := if ['^'].isPrefixOf matcher then matcher.drop 1 else matcher
  let m2 := if ['$'].isSuffixOf m1 then m1.dropLast else m1
  pyReplaceChar (pyReplaceChar m2 '%' ['\\', '%']) '_' ['\\', '_']

/-- The `matches_rule` closure in `execute_metadata_rule`: the final
(from-disk) match decision.  Note that the anchor-free fallthrough tests the
escaped `matchrule`, not the raw matcher. -/
def matches_rule (matcher x : Str) : Bool :=
  let strictstart := ['^'].isPrefixOf matcher
  let strictend := ['$'].isSuffixOf matcher
  if strictstart && strictend then x = (matcher.drop 1).dropLast
  else if strictstart then (matcher.drop 1).isPrefixOf x
  else if strictend then matcher.dropLast.isSuffixOf x
  else hasSubstr x (matchruleOf matcher)

/-- The matcher semantics as the claim words them: with no anchors the raw
matcher is looked up as a substring (no escaping). -/
def claimMatchesRule (matcher x : Str) : Bool :=
  if ['^'].isPrefixOf matcher && ['$'].isSuffixOf matcher then
    x = (matcher.drop 1).dropLast
  else if ['^'].isPrefixOf matcher then (matcher.drop 1).isPrefixOf x
  else if ['$'].isSuffixOf matcher then matcher.dropLast.isSuffixOf x
  else hasSubstr x matcher

end Matcher

section CacheRead
/-! ## `rose/cache/read.py`: `list_albums` -/

/-- A row of `releases_genres`. -/
structure GenreRow where
  release_id : Str
  genre : Str
  deriving DecidableEq

/-- A row of `releases_labels`. -/
structure LabelRow where
  release_id : Str
  label : Str
  deriving DecidableEq

/-- A row of `releases_artists`. -/
structure ArtistRow where
  release_id : Str
  artist : Str
  role : Str
  deriving DecidableEq

/-- SQL `GROUP_CONCAT(v, sep)`: `NULL` (here `none`) on an empty group. -/
def group_concat (sep : Str) (vals : List Str) : Option Str :=
  if vals = [] then none else some (sep.intercalate vals)

/-- The separator `' \\ '` used by the `list_albums` query (four characters:
space, backslash, backslash, space). -/
def GROUP_SEP : Str := [' ', '\\', '\\', ' ']

/-- SQL `COALESCE(x, '')`. -/
def coalesceEmpty (o : Option Str) : Str := o.getD []

/-- The `genres` field of a `list_albums` row: group-concatenate the
release's genre rows, coalesce `NULL` to `''`, split on `' \\ '`, sort. -/
def list_albums_genres (rows : List GenreRow) (rid : Str) : List Str :=
  pySorted (pySplit GROUP_SEP
    (coalesceEmpty (group_concat GROUP_SEP
      ((rows.filter (fun r => r.release_id = rid)).map (fun r => r.genre)))))

/-- The `labels` field of a `list_albums` row. -/
def list_albums_labels (rows : List LabelRow) (rid : Str) : List Str :=
  pySorted (pySplit GROUP_SEP
    (coalesceEmpty (group_concat GROUP_SEP
      ((rows.filter (fun r => r.release_id = rid)).map (fun r => r.label)))))

/-- The `artists` field of a `list_albums` row: zip the split name and role
group-concatenations into `(name, role)` records. -/
def list_albums_artists (rows : List ArtistRow) (rid : Str) :
    List (Str × Str) :=
  let grp := rows.filter (fun r => r.release_id = rid)
  let names := pySplit GROUP_SEP
    (coalesceEmpty (group_concat GROUP_SEP (grp.map (fun r => r.artist))))
  let roles := pySplit GROUP_SEP
    (coalesceEmpty (group_concat GROUP_SEP (grp.map (fun r => r.role))))
  names.zip roles

end CacheRead

section RulesEngine
/-! ## `rose/rules.py`: `execute_metadata_rule` -/

/-- The rule actions from `rose/rule_parser.py` (imported by `rose/rules.py`).
A compiled `SedAction` regex becomes its substitution behaviour, modelled as a
string transformer. -/
inductive RuleAction where
  | replace (replacement : Str)
  | replaceAll (replacement : List Str)
  | sed (sub : Str → Str)
  | splitOn (delimiter : Str)
  | delete

/-- The nine tag fields a rule may target. -/
inductive TagField where
  | tracktitle | year | tracknumber | discnumber | albumtitle
  | releasetype | genre | label | artist
  deriving DecidableEq

/-- `MetadataRule` from `rose/rule_parser.py`: matcher, targeted tags (in
iteration order) and action. -/
structure MetadataRule where
  matcher : Str
  tags : List TagField
  action : RuleAction

/-- The rules-engine errors raised by `execute_metadata_rule`. -/
inductive RuleError where
  | invalidRuleAction
  | invalidReplacementValue
  deriving DecidableEq

/-- `Artists` from `rose/artiststr.py` (the `AudioTags` artist mapping). -/
structure ArtistMapping where
  main : List Str
  guest : List Str
  remixer : List Str
  producer : List Str
  composer : List Str
  djmixer : List Str
  deriving DecidableEq

/-- The tag fields of `AudioTags` touched by `execute_metadata_rule`. -/
structure AudioTags where
  title : Option Str
  year : Option Int
  track_number : Option Str
  disc_number : Option Str
  album : Option Str
  release_type : Option Str
  genre : List Str
  label : List Str
  artists : ArtistMapping
  album_artists : ArtistMapping
  deriving DecidableEq

/-- `execute_single_action` from `execute_metadata_rule`: unmatched values
pass through; `Replace` substitutes, `Sed` rewrites non-empty values,
`Delete` nulls; multi-value actions raise `InvalidRuleActionError`. -/
def execute_single_action (rule : MetadataRule) (value : Option Str) :
    Except RuleError (Option Str) :=
  if ¬ matches_rule rule.matcher (value.getD []) then .ok value
  else
    match rule.action with
    | .replace r => .ok (some r)
    | .sed f => if value.getD [] = [] then .ok value else .ok (some (f (value.getD [])))
    | .delete => .ok none
    | _ => .error .invalidRuleAction

/-- The element loop of `execute_multi_value_action`: unmatched elements are
kept; matched elements go through `execute_single_action` (truthy results are
appended, `InvalidRuleActionError` is suppressed) and fall back to the
`SplitAction` branch, which appends the stripped non-falsy parts of
`v.split(delimiter)`. -/
def emvaLoop (rule : MetadataRule) : List Str → Except RuleError (List Str)
  | [] => .ok []
  | v :: rest =>
    if ¬ matches_rule rule.matcher v then (emvaLoop rule rest).map (v :: ·)
    else
      match execute_single_action rule (some v) with
      | .ok newv =>
        (emvaLoop rule rest).map
          (fun r => (if truthyStr newv then [newv.getD []] else []) ++ r)
      | .error .invalidRuleAction =>
        match rule.action with
        | .splitOn d =>
          (emvaLoop rule rest).map
            (fun r => ((pySplit d v).filter (fun s => s ≠ [])).map pyStrip ++ r)
        | _ => .error .invalidRuleAction
      | .error e => .error e

/-- `execute_multi_value_action` from `execute_metadata_rule`. -/
def execute_multi_value_action (rule : MetadataRule) (values : List Str) :
    Except RuleError (List Str) :=
  match rule.action with
  | .replaceAll r => .ok r
  | _ => emvaLoop rule values

/-- `str(tags.year) if tags.year is not None else None`. -/
def yearToValue (y : Option Int) : Option Str := y.map intToStr

/-- The year coercion `int(v) if v else None`, raising
`InvalidReplacementValueError` when `int()` fails. -/
def coerceYear (v : Option Str) : Except RuleError (Option Int) :=
  if ¬ truthyStr v then .ok none
  else
    match pyInt (v.getD []) with
    | some n => .ok (some n)
    | none => .error .invalidReplacementValue

/-- Python `x or "unknown"` used for the `releasetype` branch. -/
def orUnknown (v : Option Str) : Str :=
  if truthyStr v then v.getD [] else strLit "unknown"

/-- One iteration of the `for field in rule.tags` loop of
`execute_metadata_rule`'s first pass: apply the action to the tag state `t`,
and extend the changed-flag when the new field value differs from `orig`'s
(the `origtags` deep copy). -/
def applyField (rule : MetadataRule) (orig : AudioTags)
    (st : AudioTags × Bool) : TagField → Except RuleError (AudioTags × Bool)
  | .tracktitle => do
    let v ← execute_single_action rule st.1.title
    .ok ({ st.1 with title := v }, st.2 || (v ≠ orig.title))
  | .year => do
    let v ← execute_single_action rule (yearToValue st.1.year)
    let ny ← coerceYear v
    .ok ({ st.1 with year := ny }, st.2 || (ny ≠ orig.year))
  | .tracknumber => do
    let v ← execute_single_action rule st.1.track_number
    .ok ({ st.1 with track_number := v }, st.2 || (v ≠ orig.track_number))
  | .discnumber => do
    let v ← execute_single_action rule st.1.disc_number
    .ok ({ st.1 with disc_number := v }, st.2 || (v ≠ orig.disc_number))
  | .albumtitle => do
    let v ← execute_single_action rule st.1.album
    .ok ({ st.1 with album := v }, st.2 || (v ≠ orig.album))
  | .releasetype => do
    let v ← execute_single_action rule st.1.release_type
    let nv := orUnknown v
    .ok ({ st.1 with release_type := some nv },
         st.2 || (some nv ≠ orig.release_type))
  | .genre => do
    let l ← execute_multi_value_action rule st.1.genre
    .ok ({ st.1 with genre := l }, st.2 || (l ≠ orig.genre))
  | .label => do
    let l ← execute_multi_value_action rule st.1.label
    .ok ({ st.1 with label := l }, st.2 || (l ≠ orig.label))
  | .artist => do
    let m1 ← execute_multi_value_action rule st.1.artists.main
    let m2 ← execute_multi_value_action rule st.1.artists.guest
    let m3 ← execute_multi_value_action rule st.1.artists.remixer
    let m4 ← execute_multi_value_action rule st.1.artists.producer
    let m5 ← execute_multi_value_action rule st.1.artists.composer
    let m6 ← execute_multi_value_action rule st.1.artists.djmixer
    let a1 ← execute_multi_value_action rule st.1.album_artists.main
    let a2 ← execute_multi_value_action rule st.1.album_artists.guest
    let a3 ← execute_multi_value_action rule st.1.album_artists.remixer
    let a4 ← execute_multi_value_action rule st.1.album_artists.producer
    let a5 ← execute_multi_value_action rule st.1.album_artists.composer
    let a6 ← execute_multi_value_action rule st.1.album_artists.djmixer
    let ch := st.2
      || (m1 ≠ orig.artists.main) || (m2 ≠ orig.artists.guest)
      || (m3 ≠ orig.artists.remixer) || (m4 ≠ orig.artists.producer)
      || (m5 ≠ orig.artists.composer) || (m6 ≠ orig.artists.djmixer)
      || (a1 ≠ orig.album_artists.main) || (a2 ≠ orig.album_artists.guest)
      || (a3 ≠ orig.album_artists.remixer) || (a4 ≠ orig.album_artists.producer)
      || (a5 ≠ orig.album_artists.composer) || (a6 ≠ orig.album_artists.djmixer)
    .ok ({ st.1 with
           artists := { main := m1, guest := m2, remixer := m3,
                        producer := m4, composer := m5, djmixer := m6 },
           album_artists := { main := a1, guest := a2, remixer := a3,
                              producer := a4, composer := a5, djmixer := a6 } },
         ch)

/-- The full first-pass processing of one track: fold the field loop over the
track's tags, starting from the `origtags` deep copy and an empty changelog.
Returns the new tag state and whether any change was recorded. -/
def processTrack (rule : MetadataRule) (t : AudioTags) :
    Except RuleError (AudioTags × Bool) :=
  rule.tags.foldlM (applyField rule t) (t, false)

/-- `execute_metadata_rule` over the candidate track list (with
`confirm_yes=False`): first pass computes every track's new tags, collecting
the changed ones; the flush pass then writes exactly the collected tags.  An
exception in the first pass aborts the whole run before any flush, so the
result is the list of flushed tag states, or the error. -/
def execute_metadata_rule (rule : MetadataRule) :
    List AudioTags → Except RuleError (List AudioTags)
  | [] => .ok []
  | t :: ts => do
    let r ← processTrack rule t
    let rest ← execute_metadata_rule rule ts
    .ok (if r.2 then r.1 :: rest else rest)

end RulesEngine

section VirtualFs
/-! ## `rose/virtualfs.py`: `VirtualPath`, `RoseLogicalCore.rename`,
`RoseLogicalCore.unlink` -/

/-- The `view` field of `VirtualPath`. -/
inductive VfsView where
  | root | releases | newReleases | recentlyAdded
  | artists | genres | labels | collages | playlists
  deriving DecidableEq

/-- `VirtualPath` from `rose/virtualfs.py`. -/
structure VirtualPath where
  view : Option VfsView
  artist : Option Str := none
  genre : Option Str := none
  label : Option Str := none
  collage : Option Str := none
  playlist : Option Str := none
  release : Option Str := none
  release_position : Option Str := none
  file : Option Str := none
  file_position : Option Str := none
  deriving DecidableEq

/-- The `"{NEW} "` marker prepended to new releases' virtual dirnames. -/
def NEW_MARKER : Str := strLit "{NEW} "

/-- Python `s.removeprefix("{NEW} ")`. -/
def removeNewMarker (s : Str) : Str :=
  if NEW_MARKER.isPrefixOf s then s.drop NEW_MARKER.length else s

/-- Python `s.startswith("{NEW} ")`. -/
def startsWithNewMarker (s : Str) : Bool := NEW_MARKER.isPrefixOf s

/-- The library operation performed by a successful `rename`. -/
inductive RenameOp where
  | toggleNew (release : Str)
  | renameCollage (old new : Str)
  | renamePlaylist (old new : Str)
  deriving DecidableEq

/-- FUSE error numbers raised by the embedded operations. -/
inductive Errno where
  | eacces | enoent
  deriving DecidableEq

/-- `RoseLogicalCore.rename`: the three recognized rename semantics; any
other pair of paths raises `EACCES`. -/
def RoseLogicalCore.rename (old new : VirtualPath) : Except Errno RenameOp :=
  if truthyStr old.release ∧ truthyStr new.release
      ∧ removeNewMarker (old.release.getD []) = removeNewMarker (new.release.getD [])
      ∧ ¬ truthyStr old.file ∧ ¬ truthyStr new.file
      ∧ startsWithNewMarker (old.release.getD []) ≠ startsWithNewMarker (new.release.getD [])
  then .ok (.toggleNew (old.release.getD []))
  else if old.view = some .collages ∧ new.view = some .collages
      ∧ truthyStr old.collage ∧ truthyStr new.collage
      ∧ old.collage ≠ new.collage
      ∧ ¬ truthyStr old.release ∧ ¬ truthyStr new.release
  then .ok (.renameCollage (old.collage.getD []) (new.collage.getD []))
  else if old.view = some .playlists ∧ new.view = some .playlists
      ∧ truthyStr old.playlist ∧ truthyStr new.playlist
      ∧ old.playlist ≠ new.playlist
      ∧ ¬ truthyStr old.file ∧ ¬ truthyStr new.file
  then .ok (.renamePlaylist (old.playlist.getD []) (new.playlist.getD []))
  else .error .eacces

/-- A component, when present, is a non-empty string. -/
def okComp : Option Str → Bool
  | none => true
  | some s => s ≠ []

/-- Well-formed `VirtualPath` records: the shapes `VirtualPath.parse` can
produce, with every present component non-empty (virtual dirnames, collage
and playlist names, and filenames are non-empty in a real library). -/
def VirtualPath.wf (p : VirtualPath) : Bool :=
  okComp p.artist && okComp p.genre && okComp p.label && okComp p.collage
    && okComp p.playlist && okComp p.release && okComp p.release_position
    && okComp p.file && okComp p.file_position
    && (p.file_position.isNone || p.file.isSome)
    && match p.view with
    | none => false
    | some .root =>
      p.artist.isNone && p.genre.isNone && p.label.isNone && p.collage.isNone
        && p.playlist.isNone && p.release.isNone && p.release_position.isNone
        && p.file.isNone && p.file_position.isNone
    | some .releases | some .newReleases | some .recentlyAdded =>
      p.artist.isNone && p.genre.isNone && p.label.isNone && p.collage.isNone
        && p.playlist.isNone && p.release_position.isNone
        && (p.release.isSome || p.file.isNone)
    | some .artists =>
      p.artist.isSome && p.genre.isNone && p.label.isNone && p.collage.isNone
        && p.playlist.isNone && p.release_position.isNone
        && (p.release.isSome || p.file.isNone)
    | some .genres =>
      p.genre.isSome && p.artist.isNone && p.label.isNone && p.collage.isNone
        && p.playlist.isNone && p.release_position.isNone
        && (p.release.isSome || p.file.isNone)
    | some .labels =>
      p.label.isSome && p.artist.isNone && p.genre.isNone && p.collage.isNone
        && p.playlist.isNone && p.release_position.isNone
        && (p.release.isSome || p.file.isNone)
    | some .collages =>
      p.collage.isSome && p.artist.isNone && p.genre.isNone && p.label.isNone
        && p.playlist.isNone
        && (p.release.isSome || (p.file.isNone && p.release_position.isNone))
    | some .playlists =>
      p.playlist.isSome && p.artist.isNone && p.genre.isNone && p.label.isNone
        && p.collage.isNone && p.release.isNone && p.release_position.isNone

/-- The claim's first rename case: both paths name a release directory (a
non-empty release component and no file component) and the two names agree
except that exactly one carries the `"{NEW} "` marker. -/
def renameCaseToggleNew (old new : VirtualPath) : Prop :=
  ∃ ro rn, old.release = some ro ∧ ro ≠ [] ∧ old.file = none
    ∧ new.release = some rn ∧ rn ≠ [] ∧ new.file = none
    ∧ startsWithNewMarker ro ≠ startsWithNewMarker rn
    ∧ removeNewMarker ro = removeNewMarker rn

/-- The claim's second rename case: two distinct collage names directly under
the Collages view. -/
def renameCaseCollage (old new : VirtualPath) : Prop :=
  old.view = some .collages ∧ new.view = some .collages
    ∧ ∃ co cn, old.collage = some co ∧ new.collage = some cn ∧ co ≠ cn
    ∧ old.release = none ∧ new.release = none

/-- The claim's third rename case: two distinct playlist names directly under
the Playlists view. -/
def renameCasePlaylist (old new : VirtualPath) : Prop :=
  old.view = some .playlists ∧ new.view = some .playlists
    ∧ ∃ po pn, old.playlist = some po ∧ new.playlist = some pn ∧ po ≠ pn
    ∧ old.file = none ∧ new.file = none

/-- A track entry of a cached playlist. -/
structure PlaylistTrack where
  virtual_filename : Str
  id : Str
  deriving DecidableEq

/-- Modelled from the spec: the slice of the read cache consulted by
`unlink` through the Cache Query API (`get_playlist`, `get_release`, missing
from the sources), plus the `valid_cover_arts` configuration. Playlists map
names to track lists; releases map virtual dirnames to release IDs. -/
structure LibraryState where
  playlists : List (Str × List PlaylistTrack)
  releases : List (Str × Str)
  valid_cover_arts : List Str

/-- Modelled from the spec: `get_playlist` returns the playlist's tracks, or
`None` when no playlist has that name. -/
def get_playlist (st : LibraryState) (name : Str) : Option (List PlaylistTrack) :=
  (st.playlists.find? (fun q => q.1 = name)).map (fun q => q.2)

/-- Modelled from the spec: `get_release` resolves a virtual dirname to the
release's ID, or `None`. -/
def get_release (st : LibraryState) (vdirname : Str) : Option Str :=
  (st.releases.find? (fun q => q.1 = vdirname)).map (fun q => q.2)

/-- The library mutations `unlink` can trigger. -/
inductive LibMutation where
  | deletePlaylist (name : Str)
  | removeTrackFromPlaylist (playlist track_id : Str)
  | removePlaylistCover (playlist : Str)
  | removeReleaseCover (release_id : Str)
  deriving DecidableEq

/-- Errors out of the embedded `unlink`: a raised `FUSEError(ENOENT)`, or an
uncaught Python `ValueError` from `int()` on a malformed position. -/
inductive UnlinkError where
  | fuseENOENT
  | pyValueError
  deriving DecidableEq

/-- The track scan inside `unlink`'s delete-track branch:
`enumerate(pdata[1])`, returning the first track whose filename and 1-based
position both match.  `int(p.file_position)` is evaluated lazily, after the
filename comparison succeeds. -/
def unlinkFindTrack (file pos : Str) : List PlaylistTrack → Nat →
    Except UnlinkError (Option Str)
  | [], _ => .ok none
  | t :: ts, idx =>
    if t.virtual_filename = file then
      match pyInt pos with
      | none => .error .pyValueError
      | some n =>
        if (idx + 1 : Int) = n then .ok (some t.id)
        else unlinkFindTrack file pos ts (idx + 1)
    else unlinkFindTrack file pos ts (idx + 1)

/-- Guard of `unlink`'s first branch: delete a playlist. -/
def unlinkGuardDeletePlaylist (p : VirtualPath) : Bool :=
  p.view == some .playlists && truthyStr p.playlist && p.file == none

/-- Guard of `unlink`'s second branch: delete a track from a playlist. -/
def unlinkGuardDeleteTrack (st : LibraryState) (p : VirtualPath) : Bool :=
  p.view == some .playlists && truthyStr p.playlist && truthyStr p.file
    && truthyStr p.file_position
    && (get_playlist st (p.playlist.getD [])).isSome

/-- Guard of `unlink`'s third branch: delete a playlist's cover art. -/
def unlinkGuardPlaylistCover (st : LibraryState) (p : VirtualPath) : Bool :=
  p.view == some .playlists && truthyStr p.playlist && truthyStr p.file
    && st.valid_cover_arts.contains (pyLower (p.file.getD []))
    && (get_playlist st (p.playlist.getD [])).isSome

/-- Guard of `unlink`'s fourth branch: delete a release's cover art. -/
def unlinkGuardReleaseCover (st : LibraryState) (p : VirtualPath) : Bool :=
  truthyStr p.release && truthyStr p.file
    && st.valid_cover_arts.contains (pyLower (p.file.getD []))
    && (get_release st (p.release.getD [])).isSome

/-- `RoseLogicalCore.unlink`: recognize the four delete actions; anything
else is a silent no-op (returning no mutation) so that `rm -r` can proceed to
`rmdir`.  Note the playlist-cover branch falls through to the release-cover
check rather than returning. -/
def RoseLogicalCore.unlink (st : LibraryState) (p : VirtualPath) :
    Except UnlinkError (List LibMutation) :=
  if unlinkGuardDeletePlaylist p then
    .ok [.deletePlaylist (p.playlist.getD [])]
  else if unlinkGuardDeleteTrack st p then
    match unlinkFindTrack (p.file.getD []) (p.file_position.getD [])
        ((get_playlist st (p.playlist.getD [])).getD []) 0 with
    | .error e => .error e
    | .ok (some tid) =>
      .ok [.removeTrackFromPlaylist (p.playlist.getD []) tid]
    | .ok none => .error .fuseENOENT
  else
    let m3 := if unlinkGuardPlaylistCover st p then
      [LibMutation.removePlaylistCover (p.playlist.getD [])] else []
    let m4 := if unlinkGuardReleaseCover st p then
      [LibMutation.removeReleaseCover ((get_release st (p.release.getD [])).getD [])]
      else []
    .ok (m3 ++ m4)

end VirtualFs

section DerivedDefinitions
/-! ## Definitions derived for the claims (spec-worded variants and concrete
fixtures) -/

/-- The matcher semantics as the claim words them, amended only in the
anchor-free case: the substring looked up is the SQL-escaped matcher
(`%` and `_` prefixed with a backslash), not the raw matcher. -/
def claimMatchesRuleAmended (matcher x : Str) : Bool :=
  if ['^'].isPrefixOf matcher && ['$'].isSuffixOf matcher then
    x = (matcher.drop 1).dropLast
  else if ['^'].isPrefixOf matcher then (matcher.drop 1).isPrefixOf x
  else if ['$'].isSuffixOf matcher then matcher.dropLast.isSuffixOf x
  else hasSubstr x (pyReplaceChar (pyReplaceChar matcher '%' ['\\', '%']) '_' ['\\', '_'])

/-- The single-value actions that `execute_single_action` never raises on:
`Replace`, `Sed` and `Delete`. -/
def safeSingleAction : RuleAction → Prop
  | .replace _ => True
  | .sed _ => True
  | .delete => True
  | _ => False

/-- A concrete release-metadata record used to instantiate the round-trip
theorem. -/
def sampleMetadata : MetadataRelease where
  title := strLit "T"
  releasetype := strLit "album"
  year := some 2023
  genres := [strLit "Rock"]
  labels := []
  artists := [{ name := strLit "A", role := strLit "main" }]
  tracks := [(strLit "t1",
    { disc_number := strLit "1", track_number := strLit "1",
      title := strLit "S",
      artists := [{ name := strLit "A", role := strLit "main" }] })]

/-- A concrete rule whose replacement for `year` is not an integer. -/
def sampleBadYearRule : MetadataRule where
  matcher := strLit "2023"
  tags := [TagField.year]
  action := .replace (strLit "abc")

/-- A concrete track whose year the sample rule matches. -/
def sampleTrack : AudioTags where
  title := none
  year := some 2023
  track_number := none
  disc_number := none
  album := none
  release_type := none
  genre := []
  label := []
  artists := { main := [], guest := [], remixer := [], producer := [],
               composer := [], djmixer := [] }
  album_artists := { main := [], guest := [], remixer := [], producer := [],
                     composer := [], djmixer := [] }

/-- The virtual path of a release dirname carrying the `{NEW} ` marker. -/
def toggleOldPath : VirtualPath where
  view := some .releases
  release := some (strLit "{NEW} Album")

/-- The same release dirname without the marker. -/
def toggleNewPath : VirtualPath where
  view := some .releases
  release := some (strLit "Album")

/-- A library state with no playlists and no releases, accepting `cover.jpg`
as cover art. -/
def sampleLibrary : LibraryState where
  playlists := []
  releases := []
  valid_cover_arts := [strLit "cover.jpg"]

/-- A track path under a release, matching none of the four unlink actions. -/
def sampleUnlinkPath : VirtualPath where
  view := some .releases
  release := some (strLit "Album")
  file := some (strLit "01. Track.m4a")

/-- A filter configuration with both an artists/genres/labels whitelist and a
blacklist containing the same name. -/
def cfgBothLists : VfsFilterConfig where
  fuse_artists_whitelist := [strLit "A"]
  fuse_artists_blacklist := [strLit "A"]
  fuse_genres_whitelist := [strLit "G"]
  fuse_genres_blacklist := [strLit "G"]
  fuse_labels_whitelist := [strLit "L"]
  fuse_labels_blacklist := [strLit "L"]

/-- A filter configuration with only blacklists. -/
def cfgBlackOnly : VfsFilterConfig where
  fuse_artists_whitelist := []
  fuse_artists_blacklist := [strLit "A"]
  fuse_genres_whitelist := []
  fuse_genres_blacklist := [strLit "G"]
  fuse_labels_whitelist := []
  fuse_labels_blacklist := [strLit "L"]

/-- A filter configuration with no lists. -/
def cfgEmpty : VfsFilterConfig where
  fuse_artists_whitelist := []
  fuse_artists_blacklist := []
  fuse_genres_whitelist := []
  fuse_genres_blacklist := []
  fuse_labels_whitelist := []
  fuse_labels_blacklist := []

end DerivedDefinitions

/-! ## Helper lemmas -/

theorem except_bind_ok {ε α β : Type} (w : α) (k : α → Except ε β) :
    (do let v ← Except.ok w; k v) = k w := rfl

theorem except_bind_error {ε α β : Type} (e : ε) (k : α → Except ε β) :
    (do let v ← Except.error e; k v) = Except.error e := rfl

theorem truthyStr_eq_true_iff (o : Option Str) :
    truthyStr o = true ↔ ∃ s, o = some s ∧ s ≠ [] := by
  cases o <;> simp [truthyStr]

theorem okComp_not_truthy (o : Option Str) (hok : okComp o = true)
    (h : truthyStr o = false) : o = none := by
  cases o <;> simp_all [okComp, truthyStr]

theorem wf_okComp_file (p : VirtualPath) (h : p.wf = true) :
    okComp p.file = true := by
  simp only [VirtualPath.wf, Bool.and_eq_true] at h
  tauto

theorem wf_okComp_collage (p : VirtualPath) (h : p.wf = true) :
    okComp p.collage = true := by
  simp only [VirtualPath.wf, Bool.and_eq_true] at h
  tauto

theorem wf_okComp_playlist (p : VirtualPath) (h : p.wf = true) :
    okComp p.playlist = true := by
  simp only [VirtualPath.wf, Bool.and_eq_true] at h
  tauto

theorem wf_playlists_release_none (p : VirtualPath) (h : p.wf = true)
    (hv : p.view = some .playlists) : p.release = none := by
  simp only [VirtualPath.wf, Bool.and_eq_true] at h
  have hm := h.2
  rw [hv] at hm
  simp only [Bool.and_eq_true, Option.isNone_iff_eq_none] at hm
  tauto

theorem artistsMapId (l : List MetadataArtist) :
    l.map (fun a => ({ name := a.name, role := a.role } : MetadataArtist)) = l := by
  induction l with
  | nil => rfl
  | cons a t ih => simp [ih]

theorem tracksMapId (l : List (Str × MetadataTrack)) :
    l.map (fun p =>
      (p.1, ({ track_number := p.2.track_number, disc_number := p.2.disc_number,
               title := p.2.title,
               artists := p.2.artists.map
                 (fun a => { name := a.name, role := a.role }) } : MetadataTrack))) = l := by
  induction l with
  | nil => rfl
  | cons p t ih => simp [ih, artistsMapId]

theorem esa_total (rule : MetadataRule) (hs : safeSingleAction rule.action)
    (v : Option Str) : ∃ r, execute_single_action rule v = .ok r := by
  unfold execute_single_action
  split
  · exact ⟨v, rfl⟩
  · cases hact : rule.action with
    | replace r => exact ⟨some r, by simp [hact]⟩
    | sed f =>
      by_cases hv : v.getD [] = []
      · exact ⟨v, by simp [hact, hv]⟩
      · exact ⟨some (f (v.getD [])), by simp [hact, hv]⟩
    | delete => exact ⟨none, by simp [hact]⟩
    | replaceAll r => rw [hact] at hs; exact absurd hs (by simp [safeSingleAction])
    | splitOn d => rw [hact] at hs; exact absurd hs (by simp [safeSingleAction])

theorem emvaLoop_total (rule : MetadataRule)
    (hne : ∀ r, rule.action ≠ RuleAction.replaceAll r) :
    ∀ values, ∃ l, emvaLoop rule values = .ok l := by
  intro values
  induction values with
  | nil => exact ⟨[], rfl⟩
  | cons v rest ih =>
    obtain ⟨l, hl⟩ := ih
    unfold emvaLoop
    by_cases hm : matches_rule rule.matcher v
    · rw [if_neg (by simp [hm])]
      cases hact : rule.action with
      | replace r =>
        obtain ⟨w, hesa⟩ := esa_total rule (by rw [hact]; trivial) (some v)
        rw [hesa, hl]
        exact ⟨_, rfl⟩
      | sed f =>
        obtain ⟨w, hesa⟩ := esa_total rule (by rw [hact]; trivial) (some v)
        rw [hesa, hl]
        exact ⟨_, rfl⟩
      | delete =>
        obtain ⟨w, hesa⟩ := esa_total rule (by rw [hact]; trivial) (some v)
        rw [hesa, hl]
        exact ⟨_, rfl⟩
      | replaceAll r => exact absurd hact (hne r)
      | splitOn d =>
        have hesa : execute_single_action rule (some v) = .error .invalidRuleAction := by
          simp [execute_single_action, hm, hact]
        rw [hesa, hl]
        exact ⟨_, rfl⟩
    · rw [if_pos (by simp [hm]), hl]
      exact ⟨_, rfl⟩

theorem emva_total (rule : MetadataRule) (values : List Str) :
    ∃ l, execute_multi_value_action rule values = .ok l := by
  unfold execute_multi_value_action
  cases hact : rule.action with
  | replaceAll r => exact ⟨r, rfl⟩
  | replace r => exact emvaLoop_total rule (by simp [hact]) values
  | sed f => exact emvaLoop_total rule (by simp [hact]) values
  | splitOn d => exact emvaLoop_total rule (by simp [hact]) values
  | delete => exact emvaLoop_total rule (by simp [hact]) values

theorem coerceYear_error (v : Option Str) (e : RuleError)
    (h : coerceYear v = .error e) : e = RuleError.invalidReplacementValue := by
  unfold coerceYear at h
  split at h
  · exact absurd h (by simp)
  · split at h
    · exact absurd h (by simp)
    · exact (Except.error.injEq _ _).mp h.symm

theorem applyField_ne_year_not_error (rule : MetadataRule)
    (hs : safeSingleAction rule.action) (orig t : AudioTags) (ch : Bool)
    (f : TagField) (hf : f ≠ TagField.year) (e : RuleError) :
    applyField rule orig (t, ch) f ≠ .error e := by
  cases f with
  | year => exact absurd rfl hf
  | tracktitle =>
    obtain ⟨w, hw⟩ := esa_total rule hs t.title
    unfold applyField
    rw [hw]
    exact fun hc => Except.noConfusion hc
  | tracknumber =>
    obtain ⟨w, hw⟩ := esa_total rule hs t.track_number
    unfold applyField
    rw [hw]
    exact fun hc => Except.noConfusion hc
  | discnumber =>
    obtain ⟨w, hw⟩ := esa_total rule hs t.disc_number
    unfold applyField
    rw [hw]
    exact fun hc => Except.noConfusion hc
  | albumtitle =>
    obtain ⟨w, hw⟩ := esa_total rule hs t.album
    unfold applyField
    rw [hw]
    exact fun hc => Except.noConfusion hc
  | releasetype =>
    obtain ⟨w, hw⟩ := esa_total rule hs t.release_type
    unfold applyField
    rw [hw]
    exact fun hc => Except.noConfusion hc
  | genre =>
    obtain ⟨w, hw⟩ := emva_total rule t.genre
    unfold applyField
    rw [hw]
    exact fun hc => Except.noConfusion hc
  | label =>
    obtain ⟨w, hw⟩ := emva_total rule t.label
    unfold applyField
    rw [hw]
    exact fun hc => Except.noConfusion hc
  | artist =>
    obtain ⟨w1, h1⟩ := emva_total rule t.artists.main
    obtain ⟨w2, h2⟩ := emva_total rule t.artists.guest
    obtain ⟨w3, h3⟩ := emva_total rule t.artists.remixer
    obtain ⟨w4, h4⟩ := emva_total rule t.artists.producer
    obtain ⟨w5, h5⟩ := emva_total rule t.artists.composer
    obtain ⟨w6, h6⟩ := emva_total rule t.artists.djmixer
    obtain ⟨w7, h7⟩ := emva_total rule t.album_artists.main
    obtain ⟨w8, h8⟩ := emva_total rule t.album_artists.guest
    obtain ⟨w9, h9⟩ := emva_total rule t.album_artists.remixer
    obtain ⟨w10, h10⟩ := emva_total rule t.album_artists.producer
    obtain ⟨w11, h11⟩ := emva_total rule t.album_artists.composer
    obtain ⟨w12, h12⟩ := emva_total rule t.album_artists.djmixer
    unfold applyField
    rw [h1, h2, h3, h4, h5, h6, h7, h8, h9, h10, h11, h12]
    exact fun hc => Except.noConfusion hc

theorem applyField_ne_year_year_eq (rule : MetadataRule) (orig t : AudioTags)
    (ch : Bool) (f : TagField) (hf : f ≠ TagField.year) (r : AudioTags × Bool)
    (h : applyField rule orig (t, ch) f = .ok r) : r.1.year = t.year := by
  cases f with
  | year => exact absurd rfl hf
  | tracktitle =>
    unfold applyField at h
    cases hw : execute_single_action rule t.title with
    | ok w => rw [hw] at h; injection h with h2; rw [← h2]
    | error e => rw [hw] at h; exact Except.noConfusion h
  | tracknumber =>
    unfold applyField at h
    cases hw : execute_single_action rule t.track_number with
    | ok w => rw [hw] at h; injection h with h2; rw [← h2]
    | error e => rw [hw] at h; exact Except.noConfusion h
  | discnumber =>
    unfold applyField at h
    cases hw : execute_single_action rule t.disc_number with
    | ok w => rw [hw] at h; injection h with h2; rw [← h2]
    | error e => rw [hw] at h; exact Except.noConfusion h
  | albumtitle =>
    unfold applyField at h
    cases hw : execute_single_action rule t.album with
    | ok w => rw [hw] at h; injection h with h2; rw [← h2]
    | error e => rw [hw] at h; exact Except.noConfusion h
  | releasetype =>
    unfold applyField at h
    cases hw : execute_single_action rule t.release_type with
    | ok w => rw [hw] at h; injection h with h2; rw [← h2]
    | error e => rw [hw] at h; exact Except.noConfusion h
  | genre =>
    unfold applyField at h
    cases hw : execute_multi_value_action rule t.genre with
    | ok w => rw [hw] at h; injection h with h2; rw [← h2]
    | error e => rw [hw] at h; exact Except.noConfusion h
  | label =>
    unfold applyField at h
    cases hw : execute_multi_value_action rule t.label with
    | ok w => rw [hw] at h; injection h with h2; rw [← h2]
    | error e => rw [hw] at h; exact Except.noConfusion h
  | artist =>
    unfold applyField at h
    cases h1 : execute_multi_value_action rule t.artists.main with
    | error e => rw [h1] at h; exact Except.noConfusion h
    | ok w1 =>
    rw [h1] at h
    cases h2 : execute_multi_value_action rule t.artists.guest with
    | error e => rw [h2] at h; exact Except.noConfusion h
    | ok w2 =>
    rw [h2] at h
    cases h3 : execute_multi_value_action rule t.artists.remixer with
    | error e => rw [h3] at h; exact Except.noConfusion h
    | ok w3 =>
    rw [h3] at h
    cases h4 : execute_multi_value_action rule t.artists.producer with
    | error e => rw [h4] at h; exact Except.noConfusion h
    | ok w4 =>
    rw [h4] at h
    cases h5 : execute_multi_value_action rule t.artists.composer with
    | error e => rw [h5] at h; exact Except.noConfusion h
    | ok w5 =>
    rw [h5] at h
    cases h6 : execute_multi_value_action rule t.artists.djmixer with
    | error e => rw [h6] at h; exact Except.noConfusion h
    | ok w6 =>
    rw [h6] at h
    cases h7 : execute_multi_value_action rule t.album_artists.main with
    | error e => rw [h7] at h; exact Except.noConfusion h
    | ok w7 =>
    rw [h7] at h
    cases h8 : execute_multi_value_action rule t.album_artists.guest with
    | error e => rw [h8] at h; exact Except.noConfusion h
    | ok w8 =>
    rw [h8] at h
    cases h9 : execute_multi_value_action rule t.album_artists.remixer with
    | error e => rw [h9] at h; exact Except.noConfusion h
    | ok w9 =>
    rw [h9] at h
    cases h10 : execute_multi_value_action rule t.album_artists.producer with
    | error e => rw [h10] at h; exact Except.noConfusion h
    | ok w10 =>
    rw [h10] at h
    cases h11 : execute_multi_value_action rule t.album_artists.composer with
    | error e => rw [h11] at h; exact Except.noConfusion h
    | ok w11 =>
    rw [h11] at h
    cases h12 : execute_multi_value_action rule t.album_artists.djmixer with
    | error e => rw [h12] at h; exact Except.noConfusion h
    | ok w12 =>
    rw [h12] at h
    injection h with h2
    rw [← h2]

theorem applyField_year_error_shape (rule : MetadataRule)
    (hs : safeSingleAction rule.action) (orig t : AudioTags) (ch : Bool)
    (e : RuleError) (h : applyField rule orig (t, ch) .year = .error e) :
    e = RuleError.invalidReplacementValue := by
  unfold applyField at h
  obtain ⟨w, hw⟩ := esa_total rule hs (yearToValue t.year)
  rw [hw, except_bind_ok] at h
  cases hc : coerceYear w with
  | ok ny =>
    rw [hc, except_bind_ok] at h
    exact Except.noConfusion h
  | error e2 =>
    rw [hc, except_bind_error] at h
    injection h with h2
    rw [← h2]
    exact coerceYear_error w e2 hc

theorem applyField_year_err (rule : MetadataRule) (orig t : AudioTags)
    (ch : Bool) (v : Str)
    (hok : execute_single_action rule (yearToValue t.year) = .ok (some v))
    (hv : v ≠ []) (hp : pyInt v = none) :
    applyField rule orig (t, ch) .year = .error .invalidReplacementValue := by
  unfold applyField
  rw [hok, except_bind_ok]
  have hcy : coerceYear (some v) = .error .invalidReplacementValue := by
    unfold coerceYear
    rw [if_neg (by simp [truthyStr, hv])]
    simp only [Option.getD_some, hp]
  rw [hcy, except_bind_error]

theorem foldl_year_error (rule : MetadataRule) (hs : safeSingleAction rule.action)
    (orig : AudioTags) (y0 : Option Int) (v : Str)
    (hok : execute_single_action rule (yearToValue y0) = .ok (some v))
    (hv : v ≠ []) (hp : pyInt v = none) :
    ∀ (fields : List TagField), TagField.year ∈ fields →
      ∀ (t : AudioTags) (ch : Bool), t.year = y0 →
        fields.foldlM (applyField rule orig) (t, ch) =
          .error .invalidReplacementValue := by
  intro fields
  induction fields with
  | nil => intro hmem; exact absurd hmem (by simp)
  | cons f fs ih =>
    intro hmem t ch hy
    rw [List.foldlM_cons]
    by_cases hf : f = TagField.year
    · subst hf
      have hok' : execute_single_action rule (yearToValue t.year) = .ok (some v) := by
        rw [hy]; exact hok
      rw [applyField_year_err rule orig t ch v hok' hv hp, except_bind_error]
    · cases hres : applyField rule orig (t, ch) f with
      | error e =>
        exact absurd hres (applyField_ne_year_not_error rule hs orig t ch f hf e)
      | ok r =>
        rw [except_bind_ok]
        have hmem' : TagField.year ∈ fs := by
          rcases List.mem_cons.mp hmem with h | h
          · exact absurd h.symm hf
          · exact h
        have hyr : r.1.year = y0 :=
          (applyField_ne_year_year_eq rule orig t ch f hf r hres).trans hy
        have := ih hmem' r.1 r.2 hyr
        simpa using this

theorem foldl_fields_safe (rule : MetadataRule) (hs : safeSingleAction rule.action)
    (orig : AudioTags) :
    ∀ (fields : List TagField) (t : AudioTags) (ch : Bool),
      (∃ r, fields.foldlM (applyField rule orig) (t, ch) = .ok r) ∨
        fields.foldlM (applyField rule orig) (t, ch) =
          .error .invalidReplacementValue := by
  intro fields
  induction fields with
  | nil => intro t ch; exact Or.inl ⟨(t, ch), rfl⟩
  | cons f fs ih =>
    intro t ch
    rw [List.foldlM_cons]
    cases hres : applyField rule orig (t, ch) f with
    | error e =>
      by_cases hf : f = TagField.year
      · subst hf
        right
        have he := applyField_year_error_shape rule hs orig t ch e hres
        subst he
        rw [except_bind_error]
      · exact absurd hres (applyField_ne_year_not_error rule hs orig t ch f hf e)
    | ok r =>
      rw [except_bind_ok]
      rcases ih r.1 r.2 with ⟨r2, hr2⟩ | herr
      · left
        exact ⟨r2, by simpa using hr2⟩
      · right
        simpa using herr


/-! ## Claim theorems -/

/-- C1 (counterexample): the round-trip fails at a release whose year is `0`:
`serialize` computes `self.year or -9999`, and Python `or` treats the integer
`0` as falsy, so a year of `0` is serialized as the `-9999` sentinel and
deserializes to a null year. -/
theorem metadata_roundtrip_fails_on_year_zero :
    MetadataRelease.from_toml (MetadataRelease.serialize
      { title := [], releasetype := [], year := some 0, genres := [],
        labels := [], artists := [], tracks := [] }) ≠
      { title := [], releasetype := [], year := some 0, genres := [],
        labels := [], artists := [], tracks := [] } := by
  decide

/-- C1 (amended): for every `MetadataRelease` whose year is neither `0` (which
Python `or` coerces to the sentinel) nor `-9999` (the sentinel itself, which
decodes to null), deserializing the serialization returns a value equal to
the original: `MetadataRelease.from_toml (x.serialize()) = x`. -/
theorem metadata_roundtrip_amended (x : MetadataRelease)
    (h0 : x.year ≠ some 0) (h9 : x.year ≠ some (-9999)) :
    MetadataRelease.from_toml (MetadataRelease.serialize x) = x := by
  obtain ⟨title, rt, year, genres, labels, artists, tracks⟩ := x
  simp only [ne_eq] at h0 h9
  have hyear : (if pyOrYear year = -9999 then (none : Option Int)
      else some (pyOrYear year)) = year := by
    cases year with
    | none => simp [pyOrYear]
    | some y =>
      simp only [Option.some.injEq] at h0 h9
      simp only [pyOrYear, if_neg h0]
      rw [if_neg h9]
  simp [MetadataRelease.serialize, MetadataRelease.from_toml, artistsMapId,
    tracksMapId, hyear]

/-- C1 (witness): the amended round-trip evaluated at a concrete release. -/
theorem metadata_roundtrip_amended_witness :
    MetadataRelease.from_toml (MetadataRelease.serialize sampleMetadata) =
      sampleMetadata :=
  metadata_roundtrip_amended sampleMetadata (by decide) (by decide)

/-- C2 (counterexample): for the matcher `"_"` and the tag value `"_"` the
claim's semantics (substring lookup of the raw matcher) matches, but the code
escapes `_` to `\_` before the `in` test, so `matches_rule` rejects. -/
theorem matches_rule_claim_counterexample :
    claimMatchesRule (strLit "_") (strLit "_") = true ∧
      matches_rule (strLit "_") (strLit "_") = false := by
  decide

/-- C2 (amended): the final (from-disk) match decision is as the claim states
for anchored matchers, and in the anchor-free case the value must contain the
SQL-escaped matcher (each `%` and `_` prefixed with a backslash) as a
substring, not the raw matcher. -/
theorem matches_rule_amended :
    ∀ m x, matches_rule m x = claimMatchesRuleAmended m x := by
  intro m x
  unfold matches_rule claimMatchesRuleAmended matchruleOf
  by_cases h1 : ['^'].isPrefixOf m <;> by_cases h2 : ['$'].isSuffixOf m <;>
    simp [h1, h2]

/-- C3: over well-formed virtual paths, `rename` succeeds exactly in the three
claimed cases — toggling the `{NEW} ` marker between two paths naming the same
release, renaming a collage directly under the Collages view, and renaming a
playlist directly under the Playlists view — and refuses everything else with
`EACCES`. -/
theorem rename_exactly_three_cases (old new : VirtualPath)
    (ho : old.wf = true) (hn : new.wf = true) :
    (∃ op, RoseLogicalCore.rename old new = .ok op) ↔
      renameCaseToggleNew old new ∨ renameCaseCollage old new ∨
        renameCasePlaylist old new := by
  constructor
  · rintro ⟨op, hop⟩
    unfold RoseLogicalCore.rename at hop
    split_ifs at hop with hg1 hg2 hg3
    · left
      obtain ⟨hro, hrn, heq, hof, hnf, hne⟩ := hg1
      obtain ⟨ro, hro', hro2⟩ := (truthyStr_eq_true_iff _).mp hro
      obtain ⟨rn, hrn', hrn2⟩ := (truthyStr_eq_true_iff _).mp hrn
      refine ⟨ro, rn, hro', hro2,
        okComp_not_truthy _ (wf_okComp_file old ho) (by simpa using hof),
        hrn', hrn2,
        okComp_not_truthy _ (wf_okComp_file new hn) (by simpa using hnf), ?_, ?_⟩
      · simp [hro', hrn'] at hne ⊢
        exact hne
      · simpa [hro', hrn'] using heq
    · right; left
      obtain ⟨hov, hnv, hoc, hnc, hne, hor, hnr⟩ := hg2
      obtain ⟨co, hco, hco2⟩ := (truthyStr_eq_true_iff _).mp hoc
      obtain ⟨cn, hcn, hcn2⟩ := (truthyStr_eq_true_iff _).mp hnc
      refine ⟨hov, hnv, co, cn, hco, hcn, ?_,
        okComp_not_truthy _ ?_ (by simpa using hor),
        okComp_not_truthy _ ?_ (by simpa using hnr)⟩
      · intro h
        exact hne (by rw [hco, hcn, h])
      · simp only [VirtualPath.wf, Bool.and_eq_true] at ho
        tauto
      · simp only [VirtualPath.wf, Bool.and_eq_true] at hn
        tauto
    · right; right
      obtain ⟨hov, hnv, hop', hnp, hne, hof, hnf⟩ := hg3
      obtain ⟨po, hpo, hpo2⟩ := (truthyStr_eq_true_iff _).mp hop'
      obtain ⟨pn, hpn, hpn2⟩ := (truthyStr_eq_true_iff _).mp hnp
      refine ⟨hov, hnv, po, pn, hpo, hpn, ?_,
        okComp_not_truthy _ (wf_okComp_file old ho) (by simpa using hof),
        okComp_not_truthy _ (wf_okComp_file new hn) (by simpa using hnf)⟩
      intro h
      exact hne (by rw [hpo, hpn, h])
  · intro hcase
    unfold RoseLogicalCore.rename
    rcases hcase with h1 | h2 | h3
    · obtain ⟨ro, rn, hro, hro2, hof, hrn, hrn2, hnf, hne, heq⟩ := h1
      rw [if_pos]
      · exact ⟨_, rfl⟩
      · refine ⟨?_, ?_, ?_, ?_, ?_, ?_⟩
        · simp [truthyStr, hro, hro2]
        · simp [truthyStr, hrn, hrn2]
        · simpa [hro, hrn] using heq
        · simp [truthyStr, hof]
        · simp [truthyStr, hnf]
        · simpa [hro, hrn] using hne
    · obtain ⟨hov, hnv, co, cn, hco, hcn, hne, hor, hnr⟩ := h2
      rw [if_neg, if_pos]
      · exact ⟨_, rfl⟩
      · have hco2 : co ≠ [] := by
          have := wf_okComp_collage old ho
          rw [hco] at this
          simpa [okComp] using this
        have hcn2 : cn ≠ [] := by
          have := wf_okComp_collage new hn
          rw [hcn] at this
          simpa [okComp] using this
        refine ⟨hov, hnv, ?_, ?_, ?_, ?_, ?_⟩
        · simp [truthyStr, hco, hco2]
        · simp [truthyStr, hcn, hcn2]
        · rw [hco, hcn]
          simp [hne]
        · simp [truthyStr, hor]
        · simp [truthyStr, hnr]
      · rintro ⟨hro, -, -, -, -, -⟩
        rw [hor] at hro
        simp [truthyStr] at hro
    · obtain ⟨hov, hnv, po, pn, hpo, hpn, hne, hof, hnf⟩ := h3
      have hor : old.release = none := wf_playlists_release_none old ho hov
      have hnr : new.release = none := wf_playlists_release_none new hn hnv
      rw [if_neg, if_neg, if_pos]
      · exact ⟨_, rfl⟩
      · have hpo2 : po ≠ [] := by
          have := wf_okComp_playlist old ho
          rw [hpo] at this
          simpa [okComp] using this
        have hpn2 : pn ≠ [] := by
          have := wf_okComp_playlist new hn
          rw [hpn] at this
          simpa [okComp] using this
        refine ⟨hov, hnv, ?_, ?_, ?_, ?_, ?_⟩
        · simp [truthyStr, hpo, hpo2]
        · simp [truthyStr, hpn, hpn2]
        · rw [hpo, hpn]
          simp [hne]
        · simp [truthyStr, hof]
        · simp [truthyStr, hnf]
      · rintro ⟨hoc, -⟩
        rw [hov] at hoc
        simp at hoc
      · rintro ⟨hro, -, -, -, -, -⟩
        rw [hor] at hro
        simp [truthyStr] at hro

/-- C3 (witness): toggling the `{NEW} ` marker on a release succeeds. -/
theorem rename_exactly_three_cases_witness :
    ∃ op, RoseLogicalCore.rename toggleOldPath toggleNewPath = .ok op :=
  (rename_exactly_three_cases toggleOldPath toggleNewPath
      (by decide) (by decide)).mpr
    (Or.inl ⟨strLit "{NEW} Album", strLit "Album", rfl, by decide, rfl, rfl,
      by decide, rfl, by decide, by decide⟩)

/-- C4: a virtual path that matches none of the four recognized unlink
actions (the four branch guards of `unlink`) is silently accepted: `unlink`
returns without error and performs no library mutation. -/
theorem unlink_unmatched_is_noop (st : LibraryState) (p : VirtualPath)
    (h1 : unlinkGuardDeletePlaylist p = false)
    (h2 : unlinkGuardDeleteTrack st p = false)
    (h3 : unlinkGuardPlaylistCover st p = false)
    (h4 : unlinkGuardReleaseCover st p = false) :
    RoseLogicalCore.unlink st p = .ok [] := by
  unfold RoseLogicalCore.unlink
  simp [h1, h2, h3, h4]

/-- C4 (witness): unlinking an audio file under a release is a silent no-op. -/
theorem unlink_unmatched_is_noop_witness :
    RoseLogicalCore.unlink sampleLibrary sampleUnlinkPath = .ok [] :=
  unlink_unmatched_is_noop sampleLibrary sampleUnlinkPath
    (by decide) (by decide) (by decide) (by decide)

/-- C5: if a rule's tags include `year` and applying the action to some
matched track's year produces a non-empty replacement that does not parse as
an integer, then `execute_metadata_rule` raises
`InvalidReplacementValueError` in its first pass; the whole run aborts with
the error, before the flush pass, so no tag change is written to any file. -/
theorem year_coercion_failure_aborts_run (rule : MetadataRule)
    (tracks : List AudioTags) (t : AudioTags) (v : Str)
    (hyt : TagField.year ∈ rule.tags) (ht : t ∈ tracks)
    (hm : matches_rule rule.matcher ((yearToValue t.year).getD []) = true)
    (hok : execute_single_action rule (yearToValue t.year) = .ok (some v))
    (hv : v ≠ []) (hp : pyInt v = none) :
    execute_metadata_rule rule tracks = .error .invalidReplacementValue := by
  have hs : safeSingleAction rule.action := by
    cases hact : rule.action with
    | replace r => trivial
    | sed f => trivial
    | delete =>
      unfold execute_single_action at hok
      rw [hact] at hok
      simp [hm] at hok
    | replaceAll r =>
      unfold execute_single_action at hok
      rw [hact] at hok
      simp [hm] at hok
    | splitOn d =>
      unfold execute_single_action at hok
      rw [hact] at hok
      simp [hm] at hok
  induction tracks with
  | nil => exact absurd ht (by simp)
  | cons t0 ts ih =>
    unfold execute_metadata_rule
    rcases List.mem_cons.mp ht with heq | hmem
    · subst heq
      have herr : processTrack rule t = .error .invalidReplacementValue :=
        foldl_year_error rule hs t t.year v hok hv hp rule.tags hyt t false rfl
      rw [herr, except_bind_error]
    · rcases foldl_fields_safe rule hs t0 rule.tags t0 false with ⟨r, hr⟩ | herr
      · have hpt : processTrack rule t0 = .ok r := hr
        rw [hpt, except_bind_ok, ih hmem, except_bind_error]
      · have hpt : processTrack rule t0 = .error .invalidReplacementValue := herr
        rw [hpt, except_bind_error]

/-- C5 (witness): the run over one concrete track whose matched year would be
replaced by `"abc"` aborts with `InvalidReplacementValueError`. -/
theorem year_coercion_failure_aborts_run_witness :
    execute_metadata_rule sampleBadYearRule [sampleTrack] =
      .error .invalidReplacementValue :=
  year_coercion_failure_aborts_run sampleBadYearRule [sampleTrack] sampleTrack
    (strLit "abc") (by decide) (List.mem_singleton.mpr rfl) (by decide) rfl
    (by decide) rfl

/-- C6 (counterexample): with delimiter `";"`, the matched element `"x; ;y"`
splits into `["x", " ", "y"]`; the whitespace-only part `" "` is non-empty
before trimming, so the code keeps it and strips it to the empty string —
the result contains `""`, contradicting the claim that no empty or
whitespace-only string appears. -/
theorem split_action_claim_counterexample :
    execute_multi_value_action
        { matcher := strLit "x", tags := [], action := .splitOn (strLit ";") }
        [strLit "x; ;y"] = .ok [strLit "x", [], strLit "y"] ∧
      ([] : Str) ∈ [strLit "x", [], strLit "y"] :=
  ⟨rfl, by decide⟩

/-- C6 (amended): a Split action replaces each matched element, in order, by
the parts of `element.split(delimiter)` that are non-empty before trimming,
each part then stripped of surrounding whitespace (so a whitespace-only part
becomes an empty string in the result); non-matching elements are kept
unchanged. -/
theorem split_action_amended :
    ∀ (m d : Str) (tags : List TagField) (values : List Str),
      execute_multi_value_action
          { matcher := m, tags := tags, action := .splitOn d } values =
        .ok (values.flatMap (fun v =>
          if matches_rule m v then
            ((pySplit d v).filter (fun s => s ≠ [])).map pyStrip
          else [v])) := by
  intro m d tags values
  induction values with
  | nil => rfl
  | cons v rest ih =>
    show emvaLoop _ (v :: rest) = _
    unfold emvaLoop
    by_cases hm : matches_rule m v
    · simp only [execute_single_action, hm, not_true_eq_false, if_false, ite_false]
      simp only [execute_multi_value_action] at ih
      simp [ih, hm, Except.map]
    · simp only [execute_multi_value_action] at ih
      simp [ih, hm, Except.map]

/-- C7: the file-handle counter never wraps: Python parses
`self._state + 1 % 10_000` as `self._state + (1 % 10_000)`, i.e. `+ 1`, so
`next` returns `max 10 (state + 1)` and grows past 10 000 — at state 10 000
it returns 10 001, contradicting the claimed (and documented) wrap. -/
theorem file_handle_counter_never_wraps :
    FileHandleManager.next 10000 = 10001 ∧
      ∀ s, FileHandleManager.next s = max 10 (s + 1) :=
  ⟨rfl, fun _ => rfl⟩

/-- C8: a special-op buffer write truncates the buffer at `offset` and
appends the data — the new buffer is `b[:offset] ++ data`, with no zero-fill
when `offset` exceeds the buffer length (the buffer is then just `b ++ data`)
— and the call returns `len(data)`. -/
theorem specialop_write_truncate_append :
    ∀ (b : List UInt8) (offset : Nat) (data : List UInt8),
      specialOpWriteBuffer b offset data = b.take offset ++ data ∧
        (b.length ≤ offset → specialOpWriteBuffer b offset data = b ++ data) ∧
        specialOpWriteReturn data = data.length := by
  intro b offset data
  refine ⟨rfl, fun h => ?_, rfl⟩
  unfold specialOpWriteBuffer
  rw [List.take_of_length_le h]

/-- C8 (witness): a write at offset 5 into a 2-byte buffer appends without
zero-fill. -/
theorem specialop_write_truncate_append_witness :
    specialOpWriteBuffer [7, 8] 5 [9] = [7, 8] ++ [9] :=
  (specialop_write_truncate_append [7, 8] 5 [9]).2.1 (by decide)

/-- C9: for each of the artist, genre and label filters: with a non-empty
whitelist configured, a name is shown iff it is in the whitelist (the
blacklist is ignored entirely, even when also configured, since the iff holds
regardless of the blacklist); with only a non-empty blacklist, a name is
shown iff it is not in the blacklist; with neither, every name is shown. -/
theorem canshower_filter_semantics :
    ∀ (cfg : VfsFilterConfig) (x : Str),
      ((cfg.fuse_artists_whitelist ≠ [] →
          ((CanShower.init cfg).artist x = true ↔
            x ∈ cfg.fuse_artists_whitelist)) ∧
        (cfg.fuse_artists_whitelist = [] → cfg.fuse_artists_blacklist ≠ [] →
          ((CanShower.init cfg).artist x = true ↔
            x ∉ cfg.fuse_artists_blacklist)) ∧
        (cfg.fuse_artists_whitelist = [] → cfg.fuse_artists_blacklist = [] →
          (CanShower.init cfg).artist x = true)) ∧
      ((cfg.fuse_genres_whitelist ≠ [] →
          ((CanShower.init cfg).genre x = true ↔
            x ∈ cfg.fuse_genres_whitelist)) ∧
        (cfg.fuse_genres_whitelist = [] → cfg.fuse_genres_blacklist ≠ [] →
          ((CanShower.init cfg).genre x = true ↔
            x ∉ cfg.fuse_genres_blacklist)) ∧
        (cfg.fuse_genres_whitelist = [] → cfg.fuse_genres_blacklist = [] →
          (CanShower.init cfg).genre x = true)) ∧
      ((cfg.fuse_labels_whitelist ≠ [] →
          ((CanShower.init cfg).label x = true ↔
            x ∈ cfg.fuse_labels_whitelist)) ∧
        (cfg.fuse_labels_whitelist = [] → cfg.fuse_labels_blacklist ≠ [] →
          ((CanShower.init cfg).label x = true ↔
            x ∉ cfg.fuse_labels_blacklist)) ∧
        (cfg.fuse_labels_whitelist = [] → cfg.fuse_labels_blacklist = [] →
          (CanShower.init cfg).label x = true)) := by
  intro cfg x
  refine ⟨⟨fun hw => ?_, fun hw hb => ?_, fun hw hb => ?_⟩,
    ⟨fun hw => ?_, fun hw hb => ?_, fun hw hb => ?_⟩,
    ⟨fun hw => ?_, fun hw hb => ?_, fun hw hb => ?_⟩⟩
  · simp [CanShower.init, CanShower.artist, truthySet, hw]
  · simp [CanShower.init, CanShower.artist, truthySet, hw, hb]
  · simp [CanShower.init, CanShower.artist, truthySet, hw, hb]
  · simp [CanShower.init, CanShower.genre, truthySet, hw]
  · simp [CanShower.init, CanShower.genre, truthySet, hw, hb]
  · simp [CanShower.init, CanShower.genre, truthySet, hw, hb]
  · simp [CanShower.init, CanShower.label, truthySet, hw]
  · simp [CanShower.init, CanShower.label, truthySet, hw, hb]
  · simp [CanShower.init, CanShower.label, truthySet, hw, hb]

/-- C9 (witness): the three whitelist/blacklist/neither scenarios evaluated
at concrete configurations, for each of the three filters. -/
theorem canshower_filter_semantics_witness :
    ((CanShower.init cfgBothLists).artist (strLit "A") = true ↔
      strLit "A" ∈ cfgBothLists.fuse_artists_whitelist) ∧
    ((CanShower.init cfgBlackOnly).artist (strLit "A") = true ↔
      strLit "A" ∉ cfgBlackOnly.fuse_artists_blacklist) ∧
    (CanShower.init cfgEmpty).artist (strLit "A") = true ∧
    ((CanShower.init cfgBothLists).genre (strLit "G") = true ↔
      strLit "G" ∈ cfgBothLists.fuse_genres_whitelist) ∧
    ((CanShower.init cfgBlackOnly).genre (strLit "G") = true ↔
      strLit "G" ∉ cfgBlackOnly.fuse_genres_blacklist) ∧
    (CanShower.init cfgEmpty).genre (strLit "G") = true ∧
    ((CanShower.init cfgBothLists).label (strLit "L") = true ↔
      strLit "L" ∈ cfgBothLists.fuse_labels_whitelist) ∧
    ((CanShower.init cfgBlackOnly).label (strLit "L") = true ↔
      strLit "L" ∉ cfgBlackOnly.fuse_labels_blacklist) ∧
    (CanShower.init cfgEmpty).label (strLit "L") = true :=
  ⟨(canshower_filter_semantics cfgBothLists (strLit "A")).1.1 (by decide),
   (canshower_filter_semantics cfgBlackOnly (strLit "A")).1.2.1 rfl (by decide),
   (canshower_filter_semantics cfgEmpty (strLit "A")).1.2.2 rfl rfl,
   (canshower_filter_semantics cfgBothLists (strLit "G")).2.1.1 (by decide),
   (canshower_filter_semantics cfgBlackOnly (strLit "G")).2.1.2.1 rfl (by decide),
   (canshower_filter_semantics cfgEmpty (strLit "G")).2.1.2.2 rfl rfl,
   (canshower_filter_semantics cfgBothLists (strLit "L")).2.2.1 (by decide),
   (canshower_filter_semantics cfgBlackOnly (strLit "L")).2.2.2.1 rfl (by decide),
   (canshower_filter_semantics cfgEmpty (strLit "L")).2.2.2.2 rfl rfl⟩

/-- C10: a cached release with no genre rows (and analogously no label and no
artist rows) yields the one-element list containing the empty string as its
`genres` (never the empty list), because the `NULL` group-concatenation is
coalesced to `''` and then split; the same holds for `labels`, and such a
release yields exactly one artist with empty name and empty role. -/
theorem list_albums_empty_group_semantics (g : List GenreRow)
    (l : List LabelRow) (a : List ArtistRow) (rid : Str)
    (hg : g.filter (fun r => r.release_id = rid) = [])
    (hl : l.filter (fun r => r.release_id = rid) = [])
    (ha : a.filter (fun r => r.release_id = rid) = []) :
    list_albums_genres g rid = [[]] ∧ list_albums_labels l rid = [[]] ∧
      list_albums_artists a rid = [([], [])] := by
  refine ⟨?_, ?_, ?_⟩
  · unfold list_albums_genres
    rw [hg]
    rfl
  · unfold list_albums_labels
    rw [hl]
    rfl
  · unfold list_albums_artists
    rw [ha]
    rfl

/-- C10 (witness): a release with rows only for some other release. -/
theorem list_albums_empty_group_semantics_witness :
    list_albums_genres [{ release_id := strLit "r2", genre := strLit "Rock" }]
        (strLit "r1") = [[]] ∧
      list_albums_labels [{ release_id := strLit "r2", label := strLit "4AD" }]
        (strLit "r1") = [[]] ∧
      list_albums_artists
        [{ release_id := strLit "r2", artist := strLit "A",
           role := strLit "main" }] (strLit "r1") = [([], [])] :=
  list_albums_empty_group_semantics _ _ _ _ rfl rfl rfl
